import Mathlib

/-!
 # Verification of the Bluesky post-processing toolkit

A shallow embedding of the repository's core logic: the post classifier and
anonymizer (`bsky-core.js`, `src/unnamed/part_001`), the authentication state
machine (`bsky-core.js`), the cursor-based paginated collectors
(`src/unnamed/part_001`, `core-html.js`), the quote-discovery fallback
(`src/unnamed/part_008`, `src/unnamed/part_003`), and the thread
reconstructor described by the design document (absent from the source tree).

JavaScript conventions are embedded as follows: a possibly-`undefined`/`null`
field is `Option`; the optional-chaining operator `?.` is `Option.bind`;
string truthiness (`if (s)`, `s || d`) treats `none` and `some ""` as falsy;
a thrown exception is `Except.error`; `Array.prototype.slice(0, n)` is
`List.take n`; `String.prototype.substring(0, n)` is `String.take n`
(character counts stand in for UTF-16 code-unit counts).
-/

namespace BskySpec

/-! ## Data model: raw posts as delivered by the upstream API -/

/-- A rich-text facet feature; only its `$type` discriminant is consulted. -/
structure Feature where
  type : String
deriving Repr, DecidableEq

/-- A rich-text facet: an optional list of features. -/
structure Facet where
  features : Option (List Feature)
deriving Repr, DecidableEq

/-- An image entry inside an embed; only its alt text is consulted. -/
structure Image where
  alt : Option String
deriving Repr, DecidableEq

/-- The `media` sub-object of a record-with-media embed. -/
structure EmbedMedia where
  images : Option (List Image)
deriving Repr, DecidableEq

/-- The `value` payload of a quoted record (`embed.record.value`). -/
structure QuotedValue where
  text : Option String
deriving Repr, DecidableEq

/-- The inner `record` of a record-with-media embed (`embed.record.record`). -/
structure InnerRecord where
  uri : Option String
  value : Option QuotedValue
deriving Repr, DecidableEq

/-- The `record` object of a record embed.  For a plain
`app.bsky.embed.record` the quoted post sits at `uri`/`value`; for
`app.bsky.embed.recordWithMedia` it is nested one level deeper at `record`. -/
structure EmbedRecord where
  uri : Option String
  value : Option QuotedValue
  record : Option InnerRecord
deriving Repr, DecidableEq

/-- An embed: the `$type` discriminant plus the payload fields the code
reaches into (`record`, `images`, `media`). -/
structure Embed where
  type : String
  record : Option EmbedRecord
  images : Option (List Image)
  media : Option EmbedMedia
deriving Repr, DecidableEq

/-- A reference to another post (`reply.parent` / `reply.root`). -/
structure PostRef where
  uri : Option String
deriving Repr, DecidableEq

/-- The `reply` field of a post record. -/
structure ReplyRef where
  root : Option PostRef
  parent : Option PostRef
deriving Repr, DecidableEq

/-- The authored record payload of a post. -/
structure Record where
  text : Option String
  createdAt : Option String
  langs : Option (List String)
  reply : Option ReplyRef
  embed : Option Embed
  facets : Option (List Facet)
deriving Repr, DecidableEq

/-- The post author; only the DID is consulted. -/
structure Author where
  did : Option String
deriving Repr, DecidableEq

/-- A raw post view as delivered by the API.  Every field may be absent. -/
structure Post where
  uri : Option String
  author : Option Author
  record : Option Record
  embed : Option Embed
  indexedAt : Option String
  likeCount : Option Nat
  replyCount : Option Nat
  repostCount : Option Nat
  quoteCount : Option Nat
deriving Repr, DecidableEq

/-- The `reason` tag on a feed item; only its `$type` is consulted. -/
structure Reason where
  type : String
deriving Repr, DecidableEq

/-- A feed item: a container wrapping a post, optionally with a reason. -/
structure FeedItem where
  post : Option Post
  reason : Option Reason
deriving Repr, DecidableEq

/-- A raw post with every field absent. -/
def emptyPost : Post :=
  { uri := none, author := none, record := none, embed := none,
    indexedAt := none, likeCount := none, replyCount := none,
    repostCount := none, quoteCount := none }

/-! ## JavaScript value helpers -/

/-- JS string truthiness: `undefined`, `null` and `""` are falsy. -/
def truthyStr : Option String → Bool
  | some s => s != ""
  | none => false

/-- JS `o || d` on an optional string: falls back on `undefined`/`null`/`""`. -/
def jsOrString (o : Option String) (d : String) : String :=
  match o with
  | some s => if s == "" then d else s
  | none => d

/-- One step of splitting a character list at a separator: start a new group
at each separator, otherwise extend the current front group. -/
def splitCharStep (sep : Char) (c : Char) (acc : List (List Char)) : List (List Char) :=
  match acc with
  | cur :: rest => if c == sep then [] :: cur :: rest else (c :: cur) :: rest
  | [] => [[c]]

/-- JS `s.split(sep)` for a single-character separator: the list of groups
between separators, empty groups included (`"".split(sep)` is `[""]`). -/
def splitChar (sep : Char) (s : String) : List String :=
  (s.toList.foldr (splitCharStep sep) [[]]).map List.asString

/-- JS `s.substring(0, n)`: the first `n` characters. -/
def charTake (s : String) (n : Nat) : String :=
  (s.toList.take n).asString

/-! ## Post classifier (`detectPostType` and auxiliary extractors,
`src/bsky-core.js` lines 210-314) -/

/-- The repost check on the container:
`feedItem && feedItem.reason && feedItem.reason.$type === 'app.bsky.feed.defs#reasonRepost'`. -/
def repostSignal : Option FeedItem → Bool
  | some fi =>
    match fi.reason with
    | some r => r.type == "app.bsky.feed.defs#reasonRepost"
    | none => false
  | none => false

/-- The quote check on the record embed: present with `$type` equal to
`app.bsky.embed.record` or `app.bsky.embed.recordWithMedia`. -/
def quoteShape : Option Embed → Bool
  | some e => e.type == "app.bsky.embed.record" || e.type == "app.bsky.embed.recordWithMedia"
  | none => false

/-- `detectPostType(post, feedItem)`: repost from the container reason, then
quote from the record-embed shape, then reply-vs-thread from the reply field
(comparing the author DID with segment 2 of the parent URI split on `/`),
then `original`. -/
def detectPostType (post : Post) (feedItem : Option FeedItem) : String :=
  if repostSignal feedItem then "repost"
  else if quoteShape (post.record.bind Record.embed) then "quote"
  else if (post.record.bind Record.reply).isSome then
    let authorDID := post.author.bind Author.did
    let parentURI := ((post.record.bind Record.reply).bind ReplyRef.parent).bind PostRef.uri
    if truthyStr authorDID && truthyStr parentURI then
      match authorDID, parentURI with
      | some a, some p =>
        match (splitChar '/' p)[2]? with
        | some parentDID => if a == parentDID then "thread" else "reply"
        | none => "reply"
      | _, _ => "reply"
    else "reply"
  else "original"

/-- Non-empty alt strings of a list of images, in order
(`if (img.alt) altTexts.push(img.alt)`). -/
def altsFrom (imgs : List Image) : List String :=
  imgs.filterMap fun img =>
    match img.alt with
    | some a => if a == "" then none else some a
    | none => none

/-- `extractAltText(embed)`: alt strings from an image-gallery embed, or from
the `media` sub-object of a record-with-media embed; empty otherwise. -/
def extractAltText (embed : Option Embed) : List String :=
  match embed with
  | none => []
  | some e =>
    if e.type == "app.bsky.embed.images" || e.type == "app.bsky.embed.images#view" then
      match e.images with
      | some imgs => altsFrom imgs
      | none => []
    else if e.type == "app.bsky.embed.recordWithMedia" || e.type == "app.bsky.embed.recordWithMedia#view" then
      match e.media with
      | some m =>
        match m.images with
        | some imgs => altsFrom imgs
        | none => []
      | none => []
    else []

/-- `hasMedia(post)`: true for image, external or record-with-media embeds on
the record; false for a pure record embed or no embed. -/
def hasMedia (post : Post) : Bool :=
  match post.record.bind Record.embed with
  | none => false
  | some e =>
    e.type == "app.bsky.embed.images" || e.type == "app.bsky.embed.external" ||
      e.type == "app.bsky.embed.recordWithMedia"

/-- `hasLinks(post)`: some facet has a link-type feature. -/
def hasLinks (post : Post) : Bool :=
  match post.record.bind Record.facets with
  | none => false
  | some facets =>
    facets.any fun facet =>
      (facet.features.getD []).any fun feature =>
        feature.type == "app.bsky.richtext.facet#link"

/-- `extractQuotedTextSnippet(embed)`: reach the quoted text through a record
or record-with-media embed; truthy text is truncated to 100 characters plus
`"..."` when longer; falsy text (absent or empty) yields `null`. -/
def extractQuotedTextSnippet (embed : Option Embed) : Option String :=
  match embed with
  | none => none
  | some e =>
    let quotedText : Option String :=
      if e.type == "app.bsky.embed.record" then
        (e.record.bind EmbedRecord.value).bind QuotedValue.text
      else if e.type == "app.bsky.embed.recordWithMedia" then
        (((e.record.bind EmbedRecord.record).bind InnerRecord.value).bind QuotedValue.text)
      else none
    match quotedText with
    | some t =>
      if t != "" then
        some (if t.length > 100 then charTake t 100 ++ "..." else t)
      else none
    | none => none

/-! ## Anonymizer (`anonymizePost`, `anonymizePosts`, `extractPostFromItem`,
`src/bsky-core.js` lines 190-207, 317-376, 467-478) -/

/-- Options destructured by `anonymizePost`, with the source's defaults. -/
structure AnonOptions where
  includePostType : Bool := true
  includeAltText : Bool := true
  includeQuotedSnippet : Bool := false
  postType : Option String := none
  feedItem : Option FeedItem := none
  index : Nat := 0
deriving Repr, DecidableEq

/-- The canonical anonymized output record.  `Option` marks the fields the
code adds only conditionally. -/
structure Anonymized where
  id : String
  text : String
  createdAt : String
  likeCount : Nat
  replyCount : Nat
  repostCount : Nat
  hasMedia : Bool
  hasLinks : Bool
  language : String
  quoteCount : Option Nat
  postType : Option String
  altText : Option (List String)
  quotedPostSnippet : Option String
deriving Repr, DecidableEq

/-- The body of `anonymizePost` on a present post object: defaults for every
absent field, conditional post type, merged record-level and view-level alt
text, quoted snippet only for quote-type posts. -/
def anonymizePostCore (post : Post) (opts : AnonOptions) : Anonymized :=
  let postType : Option String :=
    if opts.includePostType then
      some (jsOrString opts.postType (detectPostType post opts.feedItem))
    else none
  let recordAlts := extractAltText (post.record.bind Record.embed)
  let viewAlts := extractAltText post.embed
  let altText : Option (List String) :=
    if opts.includeAltText then
      let fromRecord : Option (List String) :=
        if recordAlts.length > 0 then some recordAlts else none
      if viewAlts.length > 0 then
        match fromRecord with
        | some l => some (l ++ viewAlts)
        | none => some viewAlts
      else fromRecord
    else none
  let snippet : Option String :=
    if opts.includeQuotedSnippet && postType == some "quote" then
      extractQuotedTextSnippet (post.record.bind Record.embed)
    else none
  { id := "post_" ++ toString (opts.index + 1)
    text := jsOrString (post.record.bind Record.text) ""
    createdAt := jsOrString (post.record.bind Record.createdAt) (jsOrString post.indexedAt "")
    likeCount := post.likeCount.getD 0
    replyCount := post.replyCount.getD 0
    repostCount := post.repostCount.getD 0
    hasMedia := hasMedia post
    hasLinks := hasLinks post
    language := jsOrString ((post.record.bind Record.langs).bind List.head?) "unknown"
    quoteCount := post.quoteCount
    postType := postType
    altText := altText
    quotedPostSnippet := snippet }

/-- `anonymizePost(post, options)`.  The argument is optional because callers
pass through `extractPostFromItem`, which can yield `undefined`; the function
body immediately reads `post.uri` (line 318), so a missing post throws. -/
def anonymizePost (post : Option Post) (opts : AnonOptions) : Except String Anonymized :=
  match post with
  | none => .error "TypeError: cannot read properties of undefined (reading uri)"
  | some p => .ok (anonymizePostCore p opts)

/-- A raw item handed to `anonymizePosts`: either a feed-shaped wrapper
(`{ post, reason }`) or a bare post (search results are the posts
themselves). -/
inductive RawItem where
  | wrapped (fi : FeedItem)
  | bare (p : Post)
deriving Repr, DecidableEq

/-- The JS property read `item.post`: present only on a wrapper. -/
def RawItem.postField : RawItem → Option Post
  | .wrapped fi => fi.post
  | .bare _ => none

/-- The raw item used directly as a post (`item` in the `search` branch).  A
wrapper viewed as a post has none of the post fields. -/
def RawItem.asPostValue : RawItem → Post
  | .bare p => p
  | .wrapped _ => emptyPost

/-- The raw item used as a feed container (`feedItem: post` in
`anonymizePosts`).  A bare post viewed as a container has no `reason`. -/
def RawItem.asFeedItem : RawItem → FeedItem
  | .wrapped fi => fi
  | .bare _ => { post := none, reason := none }

/-- `extractPostFromItem(item, sourceType)`: `feed` and `thread` read
`item.post`; `search` returns the item itself; the default branch returns
`item.post || item`. -/
def extractPostFromItem (item : RawItem) (sourceType : Option String) : Option Post :=
  if sourceType == some "feed" then item.postField
  else if sourceType == some "search" then some item.asPostValue
  else if sourceType == some "thread" then item.postField
  else
    match item.postField with
    | some p => some p
    | none => some item.asPostValue

/-- Options handed to `anonymizePosts`: the per-post options plus the
source-shape discriminant. -/
structure BatchOptions extends AnonOptions where
  sourceType : Option String := none
deriving Repr, DecidableEq

/-- One step of `anonymizePosts`'s `.map` callback at position `index`. -/
def anonymizePostsStep (opts : BatchOptions) (index : Nat) (item : RawItem) :
    Except String Anonymized :=
  anonymizePost (extractPostFromItem item opts.sourceType)
    { opts.toAnonOptions with
        index := index
        feedItem := if opts.sourceType == some "feed" then some item.asFeedItem else none }

/-- `anonymizePosts(posts, options)`: map each item through unwrap plus
`anonymizePost` with its position as index; a throw from any item aborts the
whole map. -/
def anonymizePosts (items : List RawItem) (opts : BatchOptions) :
    Except String (List Anonymized) :=
  (items.enum.mapM fun p => anonymizePostsStep opts p.1 p.2)

/-! ## Authentication (`authenticateUser`, `isAuthenticated`,
`getCurrentUser`, `logout`, `src/bsky-core.js` lines 3-4, 24-77) -/

/-- The profile stored on a successful login. -/
structure Profile where
  did : String
  handle : String
  avatar : String
  displayName : String
deriving Repr, DecidableEq

/-- The session payload of a successful `createSession` response. -/
structure SessionData where
  accessJwt : String
  did : String
  handle : String
  avatar : Option String
  displayName : Option String
deriving Repr, DecidableEq

/-- An HTTP response as seen by the code: status flag, numeric status, and
parsed JSON body. -/
structure HttpResponse (α : Type) where
  ok : Bool
  status : Nat
  data : α
deriving Repr, DecidableEq

/-- The module-level mutable state: `authToken` and `userProfile`, both
initially `null`. -/
structure AuthState where
  authToken : Option String := none
  userProfile : Option Profile := none
deriving Repr, DecidableEq

/-- The value returned by `authenticateUser`. -/
structure AuthResult where
  success : Bool
  profile : Option Profile
  error : Option String
deriving Repr, DecidableEq

/-- `authenticateUser(handle, password)` as a transition on the module state,
abstracted over the upstream response (`Except.error` is a transport/parse
failure).  A non-2xx response throws inside the `try`, so both failure shapes
land in the `catch` and return `{ success: false, error }` without touching
`authToken`/`userProfile`. -/
def authenticateUser (resp : Except String (HttpResponse SessionData))
    (st : AuthState) : AuthResult × AuthState :=
  match resp with
  | .error e => ({ success := false, profile := none, error := some e }, st)
  | .ok r =>
    if r.ok then
      let profile : Profile :=
        { did := r.data.did
          handle := r.data.handle
          avatar := jsOrString r.data.avatar ""
          displayName := jsOrString r.data.displayName r.data.handle }
      ({ success := true, profile := some profile, error := none },
       { authToken := some r.data.accessJwt, userProfile := some profile })
    else
      ({ success := false, profile := none,
         error := some ("Authentication failed: " ++ toString r.status) }, st)

/-- `isAuthenticated()`: `authToken !== null`. -/
def isAuthenticated (st : AuthState) : Bool :=
  st.authToken.isSome

/-- `getCurrentUser()`: the stored profile. -/
def getCurrentUser (st : AuthState) : Option Profile :=
  st.userProfile

/-! ## Paginated collectors (`fetchBskyPaginatedData`,
`fetchBskyPaginatedDataWithFiltering`, `buildBskyApiUrl`,
`src/unnamed/part_001` lines 176-376) -/

/-- One page of a listing response: `data[dataKey] || []` and
`data[cursorKey]` before the `|| null` normalization. -/
structure Page (α : Type) where
  items : List α
  cursor : Option String
deriving Repr, DecidableEq

/-- The value returned by a collector. -/
structure CollectResult (α : Type) where
  data : List α
  totalFetched : Nat
  requestCount : Nat
deriving Repr, DecidableEq

/-- One issued request, recorded for stating temporal properties: the cursor
value threaded into it, the query parameters of the built URL, and the
normalized cursor of its response (`none` also when the request failed). -/
structure TraceEntry where
  cursorUsed : Option String
  params : List (String × String)
  newCursor : Option String
deriving Repr, DecidableEq

/-- `data[cursorKey] || null`: an empty-string cursor collapses to `null`. -/
def normalizeCursor : Option String → Option String
  | some s => if s == "" then none else some s
  | none => none

/-- `URLSearchParams.set`: replace the value under an existing key, else
append the pair. -/
def setParam (ps : List (String × String)) (k v : String) : List (String × String) :=
  if ps.any (fun p => p.1 == k) then
    ps.map fun p => if p.1 == k then (k, v) else p
  else ps ++ [(k, v)]

/-- The non-null base parameters, set in order
(`Object.entries(params).forEach(...)`). -/
def buildBskyBaseParams (params : List (String × Option String)) : List (String × String) :=
  params.foldl (fun acc kv =>
    match kv.2 with
    | some v => setParam acc kv.1 v
    | none => acc) []

/-- `buildBskyApiUrl(endpoint, params, cursor)` restricted to the query
parameters it assembles: every non-null base parameter is set, and the cursor
parameter is set only for a non-empty string cursor. -/
def buildBskyApiUrl (params : List (String × Option String)) (cursor : Option String) :
    List (String × String) :=
  match cursor with
  | some s =>
    if s.length > 0 then setParam (buildBskyBaseParams params) "cursor" s
    else buildBskyBaseParams params
  | none => buildBskyBaseParams params

/-- An upstream endpoint: the response to the `n`-th request (0-based), given
the cursor threaded into it and the requested page size.  `Except.error`
models a transport failure or a non-2xx status, both of which the collectors
rethrow. -/
def Server (α : Type) : Type :=
  Nat → Option String → Nat → Except String (Page α)

/-- The `while (allData.length < limit)` loop of `fetchBskyPaginatedData`,
returning the thrown-or-returned result together with the list of issued
requests.  Each iteration requests `min(itemsPerRequest, remaining)` items,
breaks on an empty page, appends the items, and breaks when the limit is
reached or the normalized cursor is absent. -/
def bskyCollectLoop {α : Type} (server : Server α)
    (baseParams : List (String × Option String)) (limit itemsPerRequest : Nat)
    (acc : List α) (cursor : Option String) (reqCount totalFetched : Nat) :
    Except String (CollectResult α) × List TraceEntry :=
  if _h : acc.length < limit then
    let requestLimit := min itemsPerRequest (limit - acc.length)
    let params := buildBskyApiUrl (baseParams ++ [("limit", some (toString requestLimit))]) cursor
    match server reqCount cursor requestLimit with
    | .error e => (.error e, [⟨cursor, params, none⟩])
    | .ok page =>
      let newCursor := normalizeCursor page.cursor
      let entry : TraceEntry := ⟨cursor, params, newCursor⟩
      match hitems : page.items with
      | [] => (.ok ⟨acc.take limit, totalFetched, reqCount + 1⟩, [entry])
      | _ :: _ =>
        let acc' := acc ++ page.items
        let totalFetched' := totalFetched + page.items.length
        if limit ≤ acc'.length ∨ newCursor = none then
          (.ok ⟨acc'.take limit, totalFetched', reqCount + 1⟩, [entry])
        else
          let rest := bskyCollectLoop server baseParams limit itemsPerRequest
            acc' newCursor (reqCount + 1) totalFetched'
          (rest.1, entry :: rest.2)
  else
    (.ok ⟨acc.take limit, totalFetched, reqCount⟩, [])
termination_by limit - acc.length
decreasing_by
  have hlen : 0 < page.items.length := by
    rw [hitems]; simp
  simp only [List.length_append] at *
  omega

/-- The options destructured by `fetchBskyPaginatedData`, with the source's
defaults. -/
structure FetchOptions where
  limit : Nat := 100
  requestMultiplier : Nat := 1
deriving Repr, DecidableEq

/-- `fetchBskyPaginatedData` with its request trace: per-request size
`min(100, max(25, ceil(limit * requestMultiplier / 4)))`, starting with no
cursor and empty accumulators. -/
def fetchBskyPaginatedDataT {α : Type} (server : Server α)
    (baseParams : List (String × Option String)) (opts : FetchOptions) :
    Except String (CollectResult α) × List TraceEntry :=
  let itemsPerRequest := min 100 (max 25 ((opts.limit * opts.requestMultiplier + 3) / 4))
  bskyCollectLoop server baseParams opts.limit itemsPerRequest [] none 0 0

/-- `fetchBskyPaginatedData(endpoint, baseParams, options)`. -/
def fetchBskyPaginatedData {α : Type} (server : Server α)
    (baseParams : List (String × Option String)) (opts : FetchOptions) :
    Except String (CollectResult α) :=
  (fetchBskyPaginatedDataT server baseParams opts).1

/-- The inner `for (const item of items)` loop of the filtered collector:
stop when the limit is reached, keep items passing the filter. -/
def takeFilter {α : Type} (filter : α → Bool) (limit : Nat) (acc : List α) :
    List α → List α
  | [] => acc
  | x :: xs =>
    if limit ≤ acc.length then acc
    else if filter x then takeFilter filter limit (acc ++ [x]) xs
    else takeFilter filter limit acc xs

/-- The `while (allData.length < limit && requestCount < maxRequests)` loop of
`fetchBskyPaginatedDataWithFiltering`.  Every request asks for the full
`itemsPerRequest` batch; matching items are collected up to the limit; the
request ceiling bounds the iteration count. -/
def bskyFilteredCollectLoop {α : Type} (server : Server α)
    (baseParams : List (String × Option String))
    (filter : α → Bool) (limit itemsPerRequest maxRequests : Nat)
    (acc : List α) (cursor : Option String) (reqCount totalFetched : Nat) :
    Except String (CollectResult α) × List TraceEntry :=
  if _h : acc.length < limit ∧ reqCount < maxRequests then
    let params := buildBskyApiUrl (baseParams ++ [("limit", some (toString itemsPerRequest))]) cursor
    match server reqCount cursor itemsPerRequest with
    | .error e => (.error e, [⟨cursor, params, none⟩])
    | .ok page =>
      let newCursor := normalizeCursor page.cursor
      let entry : TraceEntry := ⟨cursor, params, newCursor⟩
      match page.items with
      | [] => (.ok ⟨acc.take limit, totalFetched, reqCount + 1⟩, [entry])
      | _ :: _ =>
        let acc' := takeFilter filter limit acc page.items
        let totalFetched' := totalFetched + page.items.length
        if limit ≤ acc'.length ∨ newCursor = none then
          (.ok ⟨acc'.take limit, totalFetched', reqCount + 1⟩, [entry])
        else
          let rest := bskyFilteredCollectLoop server baseParams filter limit
            itemsPerRequest maxRequests acc' newCursor (reqCount + 1) totalFetched'
          (rest.1, entry :: rest.2)
  else
    (.ok ⟨acc.take limit, totalFetched, reqCount⟩, [])
termination_by maxRequests - reqCount
decreasing_by omega

/-- The options destructured by `fetchBskyPaginatedDataWithFiltering`, with
the source's defaults (`requestMultiplier = 2`, `maxRequests = 10`). -/
structure FilteredFetchOptions where
  limit : Nat := 100
  requestMultiplier : Nat := 2
  maxRequests : Nat := 10
deriving Repr, DecidableEq

/-- `fetchBskyPaginatedDataWithFiltering` with its request trace: per-request
size `min(100, max(50, ceil(limit * requestMultiplier / 3)))`. -/
def fetchBskyPaginatedDataWithFilteringT {α : Type} (server : Server α)
    (baseParams : List (String × Option String)) (filter : α → Bool)
    (opts : FilteredFetchOptions) :
    Except String (CollectResult α) × List TraceEntry :=
  let itemsPerRequest := min 100 (max 50 ((opts.limit * opts.requestMultiplier + 2) / 3))
  bskyFilteredCollectLoop server baseParams filter opts.limit itemsPerRequest
    opts.maxRequests [] none 0 0

/-- `fetchBskyPaginatedDataWithFiltering(endpoint, baseParams, filter, options)`. -/
def fetchBskyPaginatedDataWithFiltering {α : Type} (server : Server α)
    (baseParams : List (String × Option String)) (filter : α → Bool)
    (opts : FilteredFetchOptions) : Except String (CollectResult α) :=
  (fetchBskyPaginatedDataWithFilteringT server baseParams filter opts).1

/-! ## Quote discovery with search fallback (`findQuotesUsingGetQuotesAPI`,
`findQuotesViaSearch`, `src/unnamed/part_008` lines 576-644; the same
structure appears as `findQuotesForPost`/`searchForQuotes` in
`src/unnamed/part_003` lines 81-173) -/

/-- Whether `pat` begins the character list `l`. -/
def charsStart : List Char → List Char → Bool
  | [], _ => true
  | _ :: _, [] => false
  | a :: as, b :: bs => a == b && charsStart as bs

/-- The characters after the first occurrence of `pat`, searching left to
right. -/
def charsAfterFirst (pat : List Char) : List Char → Option (List Char)
  | [] => none
  | c :: cs =>
    if charsStart pat (c :: cs) then some ((c :: cs).drop pat.length)
    else charsAfterFirst pat cs

/-- The record-key extraction
`postUri.match(/\/app\.bsky\.feed\.post\/(.+)$/)`: everything after the first
occurrence of `/app.bsky.feed.post/`, required non-empty. -/
def extractRkey (postUri : String) : Option String :=
  match charsAfterFirst "/app.bsky.feed.post/".toList postUri.toList with
  | some tail => if tail.isEmpty then none else some tail.asString
  | none => none

/-- The search-hit filter: the post's record embed references exactly the
target URI (`embed.record?.uri === postUri` for a record embed,
`embed.record?.record?.uri === postUri` for record-with-media). -/
def embedReferencesUri (post : Post) (postUri : String) : Bool :=
  match post.record.bind Record.embed with
  | none => false
  | some embed =>
    if embed.type == "app.bsky.embed.record" then
      (embed.record.bind EmbedRecord.uri) == some postUri
    else if embed.type == "app.bsky.embed.recordWithMedia" then
      ((embed.record.bind EmbedRecord.record).bind InnerRecord.uri) == some postUri
    else false

/-- `findQuotesViaSearch(postUri)`: derive the query from the first 12
characters of the record key, run the full-text search, and keep only the
hits whose embed references the target URI.  A malformed URI or a failed
search degrades to an empty list. -/
def findQuotesViaSearch (searchResp : String → Except String (List Post))
    (postUri : String) : List Post :=
  match extractRkey postUri with
  | none => []
  | some postId =>
    let searchQuery := charTake postId 12
    match searchResp searchQuery with
    | .error _ => []
    | .ok allPosts => allPosts.filter fun post => embedReferencesUri post postUri

/-- `findQuotesUsingGetQuotesAPI(postUri)`: the dedicated get-quotes endpoint,
falling back to the search method on a non-2xx response or a transport
error (both modelled as `Except.error`). -/
def findQuotesUsingGetQuotesAPI (getQuotesResp : Except String (List Post))
    (searchResp : String → Except String (List Post)) (postUri : String) :
    List Post :=
  match getQuotesResp with
  | .ok quotes => quotes
  | .error _ => findQuotesViaSearch searchResp postUri

/-! ## Thread reconstructor

Modelled from the spec: the repository ships no thread-tree builder (its
`extractReplies` in `bsky-thread.js` only flattens the API's nested thread),
so `buildThread` and its node types below follow section 4.4 of the design
document word by word: root URI from the first flat reply, exclusion of
corrupt items, parent-URI fallback to the root, orphan promotion to top
level, and a recursive stable sort of every children list by creation
instant ascending. -/

/-- Modelled from the spec: a flat reply item (`RawReplyItem`), carrying its
own URI, the payload used for exclusion (text, embed presence), its creation
instant, and its declared root and parent references. -/
structure FlatReply where
  uri : String
  text : Option String
  hasEmbed : Bool
  createdAt : Option Nat
  rootUri : String
  parentUri : Option String
deriving Repr, DecidableEq

/-- Modelled from the spec: a decorated node during construction — the
scaffolding (own URI, resolved parent URI, creation instant) around the
payload the public nodes keep. -/
structure BuildNode where
  uri : String
  parentUri : String
  createdAt : Nat
  text : String
deriving Repr, DecidableEq

/-- Modelled from the spec: a public thread node — the anonymized payload
(abridged here to the text and creation instant the claims inspect) plus the
chronologically ordered children, with the construction scaffolding
stripped. -/
inductive ThreadNode where
  | mk (text : String) (createdAt : Nat) (children : List ThreadNode)

/-- The payload text of a thread node. -/
def ThreadNode.text : ThreadNode → String
  | .mk t _ _ => t

/-- The creation instant of a thread node. -/
def ThreadNode.createdAt : ThreadNode → Nat
  | .mk _ c _ => c

/-- The ordered children of a thread node. -/
def ThreadNode.children : ThreadNode → List ThreadNode
  | .mk _ _ cs => cs

/-- Modelled from the spec: the corrupt-item exclusion — a flat item lacking
both text and embed, or lacking a creation timestamp, is dropped before tree
construction. -/
def keepFlatReply (f : FlatReply) : Bool :=
  (f.text.isSome || f.hasEmbed) && f.createdAt.isSome

/-- Modelled from the spec: decoration of a kept flat item — its parent URI
falls back to the thread root when no explicit parent is declared. -/
def decorate (rootUri : String) (f : FlatReply) : BuildNode :=
  { uri := f.uri
    parentUri := f.parentUri.getD rootUri
    createdAt := f.createdAt.getD 0
    text := f.text.getD "" }

/-- The stable ascending order on creation instants used for every children
list (ties keep encounter order under insertion sort with `≤`). -/
def byCreatedAt (a b : BuildNode) : Prop :=
  a.createdAt ≤ b.createdAt

instance : DecidableRel byCreatedAt := fun a b => Nat.decLe a.createdAt b.createdAt

/-- Modelled from the spec: build the subtree below the node with URI `uri`
from the pool of non-top-level nodes, sorting each children list by creation
instant ascending.  The fuel starts at the pool size, which the parent-pointer
forest the upstream API returns can never exhaust. -/
def buildChildren (pool : List BuildNode) : Nat → String → List ThreadNode
  | 0, _ => []
  | fuel + 1, uri =>
    ((pool.filter fun n => n.parentUri == uri).insertionSort byCreatedAt).map
      fun n => ThreadNode.mk n.text n.createdAt (buildChildren pool fuel n.uri)

/-- Modelled from the spec: `buildThread(flatReplies)` — root URI from the
first flat reply's declared root, corrupt items excluded, top level made of
the nodes whose parent is the root or is missing from the set (orphan
promotion), every level chronologically sorted, scaffolding stripped. -/
def buildThread (flatReplies : List FlatReply) : List ThreadNode :=
  match flatReplies with
  | [] => []
  | first :: _ =>
    let rootUri := first.rootUri
    let nodes := (flatReplies.filter keepFlatReply).map (decorate rootUri)
    let uris := nodes.map BuildNode.uri
    let isTop := fun (n : BuildNode) => n.parentUri == rootUri || !(uris.contains n.parentUri)
    let pool := nodes.filter fun n => !(isTop n)
    ((nodes.filter isTop).insertionSort byCreatedAt).map
      fun n => ThreadNode.mk n.text n.createdAt (buildChildren pool pool.length n.uri)

/-- Adjacent-pairs check: the creation instants along a list never
decrease. -/
def pairwiseAsc (nodes : List ThreadNode) : Bool :=
  (nodes.zip nodes.tail).all fun p => decide (p.1.createdAt ≤ p.2.createdAt)

mutual

/-- Every children list inside this node is sorted ascending. -/
def nodeSorted : ThreadNode → Bool
  | .mk _ _ cs => pairwiseAsc cs && forestSorted cs

/-- Every children list inside this forest is sorted ascending. -/
def forestSorted : List ThreadNode → Bool
  | [] => true
  | n :: ns => nodeSorted n && forestSorted ns

end

/-- The given top-level list and every children list below it are sorted by
creation instant ascending. -/
def nodesSorted (nodes : List ThreadNode) : Bool :=
  pairwiseAsc nodes && forestSorted nodes

/-! ## Claims about the post classifier -/

/-- A bare record-reference (quote-shaped) embed. -/
def bareQuoteEmbed : Embed :=
  { type := "app.bsky.embed.record", record := none, images := none, media := none }

/-- A feed item whose reason marks a repost. -/
def repostReasonItem : FeedItem :=
  { post := none, reason := some { type := "app.bsky.feed.defs#reasonRepost" } }

/-- A record carrying only a quote-shaped embed. -/
def quoteEmbedRecord : Record :=
  { text := some "q", createdAt := none, langs := none,
    reply := none, embed := some bareQuoteEmbed, facets := none }

/-- A post whose record embed is quote-shaped. -/
def quoteEmbedPost : Post :=
  { emptyPost with record := some quoteEmbedRecord }

/-! ## Concrete inputs and relations used by the claim statements -/

/-- A reply reference pointing at another post of the author `did:alice`. -/
def selfReplyRef : ReplyRef :=
  { root := some { uri := some "at://did:alice/app.bsky.feed.post/r" },
    parent := some { uri := some "at://did:alice/app.bsky.feed.post/1" } }

/-- A record that is a self-reply and also carries a quote-shaped embed. -/
def selfQuoteRecord : Record :=
  { text := some "look", createdAt := none, langs := none,
    reply := some selfReplyRef, embed := some bareQuoteEmbed, facets := none }

/-- A self-reply whose record also carries a quote-shaped embed. -/
def selfQuotePost : Post :=
  { emptyPost with
      author := some { did := some "did:alice" },
      record := some selfQuoteRecord }

/-- A record that is a self-reply with no embed at all. -/
def selfThreadRecord : Record :=
  { text := some "more", createdAt := none, langs := none,
    reply := some selfReplyRef, embed := none, facets := none }

/-- A self-reply with no embed at all. -/
def selfThreadPost : Post :=
  { emptyPost with
      author := some { did := some "did:alice" },
      record := some selfThreadRecord }

/-- The quoted-record payload whose text is empty. -/
def emptyTextEmbedRecord : EmbedRecord :=
  { uri := none, value := some { text := some "" }, record := none }

/-- A record embed quoting a post whose text is empty. -/
def emptyTextQuoteEmbed : Embed :=
  { type := "app.bsky.embed.record",
    record := some emptyTextEmbedRecord,
    images := none, media := none }

/-- The quoted-record payload with a short text. -/
def shortTextEmbedRecord : EmbedRecord :=
  { uri := none, value := some { text := some "short quote" }, record := none }

/-- A record embed quoting a short text. -/
def shortTextQuoteEmbed : Embed :=
  { type := "app.bsky.embed.record",
    record := some shortTextEmbedRecord,
    images := none, media := none }

/-- The stored profile of the logged-in witness state. -/
def aliceProfile : Profile :=
  { did := "did:alice", handle := "alice.test", avatar := "", displayName := "Alice" }

/-- A logged-in state used to exercise the failure path. -/
def loggedInState : AuthState :=
  { authToken := some "jwt-token", userProfile := some aliceProfile }

/-- The anonymized record produced from a post with every field absent. -/
def defaultAnonymized : Anonymized :=
  { id := "post_1", text := "", createdAt := "", likeCount := 0,
    replyCount := 0, repostCount := 0, hasMedia := false, hasLinks := false,
    language := "unknown", quoteCount := none, postType := some "original",
    altText := none, quotedPostSnippet := none }

/-- The embedded record reference used by the C7 witness quote. -/
def witnessQuoteRef : EmbedRecord :=
  { uri := some "at://did:alice/app.bsky.feed.post/3kabcdefgh2l4", value := none,
    record := none }

/-- An embed referencing the C7 witness target post. -/
def witnessQuoteEmbed : Embed :=
  { type := "app.bsky.embed.record", record := some witnessQuoteRef,
    images := none, media := none }

/-- A record quoting the C7 witness target post. -/
def witnessQuoteRecord : Record :=
  { text := some "quoting", createdAt := none, langs := none, reply := none,
    embed := some witnessQuoteEmbed, facets := none }

/-- A search hit that genuinely quotes the C7 witness target post. -/
def witnessQuotePost : Post :=
  { emptyPost with record := some witnessQuoteRecord }

/-- The search endpoint of the C7 witness: one genuine quote and one
unrelated hit. -/
def witnessSearch : String → Except String (List Post) :=
  fun _ => .ok [witnessQuotePost, emptyPost]

/-- Flat reply A: a direct reply to the root, created at instant 20. -/
def replyA : FlatReply :=
  { uri := "at://A", text := some "A", hasEmbed := false, createdAt := some 20,
    rootUri := "at://root", parentUri := some "at://root" }

/-- Flat reply B: a reply to A, created at instant 30. -/
def replyB : FlatReply :=
  { uri := "at://B", text := some "B", hasEmbed := false, createdAt := some 30,
    rootUri := "at://root", parentUri := some "at://A" }

/-- Flat reply C: a direct reply to the root, created at instant 10,
before A. -/
def replyC : FlatReply :=
  { uri := "at://C", text := some "C", hasEmbed := false, createdAt := some 10,
    rootUri := "at://root", parentUri := some "at://root" }

/-- The chain relation over the request trace: every request threads in the
cursor its predecessor's response produced. -/
def cursorChain (a b : TraceEntry) : Prop :=
  b.cursorUsed = a.newCursor

/-- A one-page server answering every request with a single item and no
cursor. -/
def shortPageServer : Server Nat :=
  fun _ _ _ => .ok ⟨[0], none⟩

/-- A predicate-refusing filter paired with an endless server: the worst
case the request ceiling exists for. -/
def endlessServer : Server Nat :=
  fun _ _ _ => .ok ⟨[0], some "more"⟩

/-- C2: for every post and container context, a repost-reason marker on the
container takes precedence over a quote-shaped record embed:
`detectPostType` returns `repost`. -/
theorem detectPostType_repost_wins (post : Post) (fi : FeedItem)
    (hrep : repostSignal (some fi) = true)
    (_hq : quoteShape (post.record.bind Record.embed) = true) :
    detectPostType post (some fi) = "repost" := by
  simp [detectPostType, hrep]

/-- C2 witness: a concrete post with a quote embed inside a concrete
reposted feed item classifies as `repost`. -/
theorem detectPostType_repost_wins_witness :
    repostSignal (some repostReasonItem) = true ∧
    quoteShape (quoteEmbedPost.record.bind Record.embed) = true ∧
    detectPostType quoteEmbedPost (some repostReasonItem) = "repost" :=
  ⟨by decide, by decide,
    detectPostType_repost_wins quoteEmbedPost repostReasonItem (by decide) (by decide)⟩

/-- C3 counterexample: a post replying to its own author's post but carrying
a quote-shaped embed classifies as `quote`, not `thread`, although its
parent URI's owning identity equals its author identity. -/
theorem detectPostType_selfreply_counterexample :
    (splitChar '/' "at://did:alice/app.bsky.feed.post/1")[2]? = some "did:alice" ∧
    selfQuotePost.author.bind Author.did = some "did:alice" ∧
    ((selfQuotePost.record.bind Record.reply).bind ReplyRef.parent).bind PostRef.uri =
      some "at://did:alice/app.bsky.feed.post/1" ∧
    detectPostType selfQuotePost none = "quote" ∧
    detectPostType selfQuotePost none ≠ "thread" := by
  refine ⟨by decide, by decide, by decide, by decide, by decide⟩

/-- C3 amended: a self-reply (non-empty author DID equal to segment 2 of the
non-empty parent URI split on `/`) never classifies as `reply`; it
classifies as `thread` provided the container carries no repost signal and
the record embed is not quote-shaped. -/
theorem detectPostType_selfreply (post : Post) (fi : Option FeedItem) (d u : String)
    (had : post.author.bind Author.did = some d) (hd : d ≠ "")
    (hpu : ((post.record.bind Record.reply).bind ReplyRef.parent).bind PostRef.uri = some u)
    (hu : u ≠ "") (hsplit : (splitChar '/' u)[2]? = some d) :
    detectPostType post fi ≠ "reply" ∧
      (repostSignal fi = false →
        quoteShape (post.record.bind Record.embed) = false →
        detectPostType post fi = "thread") := by
  have hreply : (post.record.bind Record.reply).isSome = true := by
    rcases h : post.record.bind Record.reply with _ | r
    · rw [h] at hpu; simp at hpu
    · rfl
  by_cases hrep : repostSignal fi = true
  · constructor
    · simp [detectPostType, hrep]
    · intro hrep' _; rw [hrep'] at hrep; cases hrep
  · rw [Bool.not_eq_true] at hrep
    by_cases hq : quoteShape (post.record.bind Record.embed) = true
    · constructor
      · simp [detectPostType, hrep, hq]
      · intro _ hq'; rw [hq'] at hq; cases hq
    · rw [Bool.not_eq_true] at hq
      have hthread : detectPostType post fi = "thread" := by
        simp only [detectPostType, hrep, hq, hreply, had, hpu, Bool.false_eq_true,
          if_false, if_true]
        simp [truthyStr, hd, hu, hsplit]
      exact ⟨by rw [hthread]; decide, fun _ _ => hthread⟩

/-- C3 witness: the amended claim at a concrete self-reply without repost or
quote signals. -/
theorem detectPostType_selfreply_witness :
    selfThreadPost.author.bind Author.did = some "did:alice" ∧
    ((selfThreadPost.record.bind Record.reply).bind ReplyRef.parent).bind PostRef.uri =
      some "at://did:alice/app.bsky.feed.post/1" ∧
    (detectPostType selfThreadPost none ≠ "reply" ∧
      (repostSignal none = false →
        quoteShape (selfThreadPost.record.bind Record.embed) = false →
        detectPostType selfThreadPost none = "thread")) :=
  ⟨by decide, by decide,
    detectPostType_selfreply selfThreadPost none "did:alice"
      "at://did:alice/app.bsky.feed.post/1" (by decide) (by decide) (by decide)
      (by decide) (by decide)⟩

/-! ## Claims about the quoted-snippet extractor -/

/-- C8 counterexample: an empty quoted text is reachable through a record
embed and has length at most 100, yet the extracted snippet is `null`
rather than the text unchanged (the source tests JS truthiness before
truncating). -/
theorem extractQuotedTextSnippet_counterexample :
    ((emptyTextQuoteEmbed.record.bind EmbedRecord.value).bind QuotedValue.text = some "") ∧
    ("".length ≤ 100) ∧
    extractQuotedTextSnippet (some emptyTextQuoteEmbed) = none := by
  refine ⟨by decide, by decide, by decide⟩

/-- C8 amended: for a non-empty quoted text reachable through a record or
record-with-media embed, the snippet is the text unchanged at length at most
100 (in particular no ellipsis at exactly 100) and the first 100 characters
plus `"..."` beyond; an empty quoted text yields no snippet. -/
theorem extractQuotedTextSnippet_truncation (e : Embed) (t : String)
    (hshape :
      (e.type = "app.bsky.embed.record" ∧
        (e.record.bind EmbedRecord.value).bind QuotedValue.text = some t) ∨
      (e.type = "app.bsky.embed.recordWithMedia" ∧
        ((e.record.bind EmbedRecord.record).bind InnerRecord.value).bind QuotedValue.text
          = some t)) :
    (t = "" → extractQuotedTextSnippet (some e) = none) ∧
    (t ≠ "" → t.length ≤ 100 → extractQuotedTextSnippet (some e) = some t) ∧
    (t ≠ "" → t.length > 100 →
      extractQuotedTextSnippet (some e) = some (charTake t 100 ++ "...")) := by
  refine ⟨fun ht0 => ?_, fun htne hle => ?_, fun htne hgt => ?_⟩
  · rcases hshape with ⟨hty, htext⟩ | ⟨hty, htext⟩ <;>
      simp_all [extractQuotedTextSnippet]
  · rcases hshape with ⟨hty, htext⟩ | ⟨hty, htext⟩ <;>
      simp_all [extractQuotedTextSnippet, not_lt.mpr hle]
  · rcases hshape with ⟨hty, htext⟩ | ⟨hty, htext⟩ <;>
      simp_all [extractQuotedTextSnippet, hgt]

/-- C8 witness: the amended claim at a concrete short quoted text. -/
theorem extractQuotedTextSnippet_truncation_witness :
    ((shortTextQuoteEmbed.type = "app.bsky.embed.record" ∧
      (shortTextQuoteEmbed.record.bind EmbedRecord.value).bind QuotedValue.text
        = some "short quote") ∨
     (shortTextQuoteEmbed.type = "app.bsky.embed.recordWithMedia" ∧
      ((shortTextQuoteEmbed.record.bind EmbedRecord.record).bind InnerRecord.value).bind
        QuotedValue.text = some "short quote")) ∧
    (("short quote" : String) = "" → extractQuotedTextSnippet (some shortTextQuoteEmbed) = none) ∧
    (("short quote" : String) ≠ "" → ("short quote" : String).length ≤ 100 →
      extractQuotedTextSnippet (some shortTextQuoteEmbed) = some "short quote") ∧
    (("short quote" : String) ≠ "" → ("short quote" : String).length > 100 →
      extractQuotedTextSnippet (some shortTextQuoteEmbed)
        = some (charTake "short quote" 100 ++ "...")) :=
  ⟨Or.inl ⟨rfl, rfl⟩,
    extractQuotedTextSnippet_truncation shortTextQuoteEmbed "short quote"
      (Or.inl ⟨rfl, rfl⟩)⟩

/-! ## Claims about authentication failure -/

/-- C9: a failed session request — transport error or non-2xx response —
makes `authenticateUser` return `success: false` with an error message, and
leaves the module state untouched, so `isAuthenticated` and `getCurrentUser`
observe exactly what they observed before the call. -/
theorem authenticateUser_failure_preserves_state
    (resp : Except String (HttpResponse SessionData)) (st : AuthState)
    (hfail : (∃ e, resp = .error e) ∨ ∃ r, resp = .ok r ∧ r.ok = false) :
    (authenticateUser resp st).1.success = false ∧
    ((authenticateUser resp st).1.error).isSome = true ∧
    (authenticateUser resp st).2 = st ∧
    isAuthenticated (authenticateUser resp st).2 = isAuthenticated st ∧
    getCurrentUser (authenticateUser resp st).2 = getCurrentUser st := by
  rcases hfail with ⟨e, rfl⟩ | ⟨r, rfl, hr⟩ <;>
    simp_all [authenticateUser]

/-- C9 witness: a concrete HTTP 401 failure against a logged-in state
changes nothing. -/
theorem authenticateUser_failure_witness :
    ((∃ e, (Except.ok (ε := String)
        (⟨false, 401, ⟨"", "", "", none, none⟩⟩ : HttpResponse SessionData)) = .error e) ∨
      ∃ r, (Except.ok (ε := String)
        (⟨false, 401, ⟨"", "", "", none, none⟩⟩ : HttpResponse SessionData)) = .ok r ∧
          r.ok = false) ∧
    ((authenticateUser (.ok ⟨false, 401, ⟨"", "", "", none, none⟩⟩) loggedInState).1.success
        = false ∧
      ((authenticateUser (.ok ⟨false, 401, ⟨"", "", "", none, none⟩⟩) loggedInState).1.error).isSome
        = true ∧
      (authenticateUser (.ok ⟨false, 401, ⟨"", "", "", none, none⟩⟩) loggedInState).2
        = loggedInState ∧
      isAuthenticated (authenticateUser (.ok ⟨false, 401, ⟨"", "", "", none, none⟩⟩)
          loggedInState).2 = isAuthenticated loggedInState ∧
      getCurrentUser (authenticateUser (.ok ⟨false, 401, ⟨"", "", "", none, none⟩⟩)
          loggedInState).2 = getCurrentUser loggedInState) :=
  ⟨Or.inr ⟨_, rfl, rfl⟩,
    authenticateUser_failure_preserves_state _ loggedInState (Or.inr ⟨_, rfl, rfl⟩)⟩

/-! ## Claims about anonymization totality -/

/-- C10: `anonymizePost` is total on any present post — every optional field
may be absent and yields the documented defaults — but a missing post throws
(the unguarded `post.uri` read), and `anonymizePosts` over a feed-shaped
item with no nested post therefore throws as well. -/
theorem anonymizePost_null_behavior :
    (∀ (p : Post) (opts : AnonOptions), (anonymizePost (some p) opts).isOk = true) ∧
    (∀ opts : AnonOptions, (anonymizePost none opts).isOk = false) ∧
    anonymizePostCore emptyPost {} = defaultAnonymized ∧
    (anonymizePosts [RawItem.wrapped { post := none, reason := none }]
        { sourceType := some "feed" }).isOk = false := by
  refine ⟨fun p opts => rfl, fun opts => rfl, by decide, by decide⟩

/-! ## Claims about quote discovery -/

/-- C7: when the get-quotes endpoint fails, quote discovery falls back to a
full-text search whose query is the first 12 characters of the record key
extracted from the post URI, and returns exactly the search hits whose embed
references the target URI; in particular every returned post's embed
references the target URI. -/
theorem findQuotes_fallback (e : String)
    (searchResp : String → Except String (List Post)) (postUri rkey : String)
    (hr : extractRkey postUri = some rkey) (posts : List Post)
    (hs : searchResp (charTake rkey 12) = .ok posts) :
    findQuotesUsingGetQuotesAPI (.error e) searchResp postUri =
      posts.filter (fun p => embedReferencesUri p postUri) ∧
    ∀ p ∈ findQuotesUsingGetQuotesAPI (.error e) searchResp postUri,
      embedReferencesUri p postUri = true := by
  have hres : findQuotesUsingGetQuotesAPI (.error e) searchResp postUri =
      posts.filter (fun p => embedReferencesUri p postUri) := by
    simp [findQuotesUsingGetQuotesAPI, findQuotesViaSearch, hr, hs]
  refine ⟨hres, fun p hp => ?_⟩
  rw [hres] at hp
  exact (List.mem_filter.mp hp).2

/-- C7 witness: a concrete failing get-quotes call falls back to search and
keeps exactly the hit whose embed references the target URI. -/
theorem findQuotes_fallback_witness :
    extractRkey "at://did:alice/app.bsky.feed.post/3kabcdefgh2l4"
      = some "3kabcdefgh2l4" ∧
    witnessSearch (charTake "3kabcdefgh2l4" 12) = .ok [witnessQuotePost, emptyPost] ∧
    (findQuotesUsingGetQuotesAPI (.error "HTTP 400") witnessSearch
        "at://did:alice/app.bsky.feed.post/3kabcdefgh2l4" =
      [witnessQuotePost, emptyPost].filter
        (fun p => embedReferencesUri p "at://did:alice/app.bsky.feed.post/3kabcdefgh2l4") ∧
      ∀ p ∈ findQuotesUsingGetQuotesAPI (.error "HTTP 400") witnessSearch
          "at://did:alice/app.bsky.feed.post/3kabcdefgh2l4",
        embedReferencesUri p "at://did:alice/app.bsky.feed.post/3kabcdefgh2l4" = true) :=
  ⟨by decide, rfl,
    findQuotes_fallback "HTTP 400" witnessSearch
      "at://did:alice/app.bsky.feed.post/3kabcdefgh2l4" "3kabcdefgh2l4"
      (by decide) [witnessQuotePost, emptyPost] rfl⟩

/-! ## Claims about thread reconstruction -/

/-- C1: on the flat list A (parent root), B (parent A), C (parent root,
created before A), `buildThread` returns `[C, A]` at top level with B as the
sole child of A, and every children list of the result is sorted by creation
instant ascending (the model sorts with a stable insertion sort). -/
theorem buildThread_round_trip :
    buildThread [replyA, replyB, replyC] =
      [ThreadNode.mk "C" 10 [], ThreadNode.mk "A" 20 [ThreadNode.mk "B" 30 []]] ∧
    nodesSorted (buildThread [replyA, replyB, replyC]) = true :=
  ⟨rfl, rfl⟩

/-! ## Helper lemmas about URL building -/

/-- The key of an element of `setParam` comes from the old list or is the
key just set. -/
theorem setParam_key {ps : List (String × String)} {k v : String} {kv : String × String}
    (h : kv ∈ setParam ps k v) : kv.1 ∈ ps.map Prod.fst ∨ kv = (k, v) := by
  unfold setParam at h
  split at h
  · rcases List.mem_map.mp h with ⟨p, hp, hpe⟩
    by_cases hk : (p.1 == k) = true
    · rw [if_pos hk] at hpe
      exact Or.inr hpe.symm
    · rw [if_neg hk] at hpe
      exact Or.inl (hpe ▸ List.mem_map_of_mem Prod.fst hp)
  · rcases List.mem_append.mp h with h | h
    · exact Or.inl (List.mem_map_of_mem Prod.fst h)
    · exact Or.inr (by simpa using h)

/-- Keys produced by the base-parameter fold come from the accumulator or
from the parameter list. -/
theorem buildBase_key (ps : List (String × Option String)) :
    ∀ (acc : List (String × String)) (kv : String × String),
      kv ∈ ps.foldl (fun acc kv =>
        match kv.2 with
        | some v => setParam acc kv.1 v
        | none => acc) acc →
      kv.1 ∈ acc.map Prod.fst ∨ kv.1 ∈ ps.map Prod.fst := by
  induction ps with
  | nil => intro acc kv h; exact Or.inl (List.mem_map_of_mem Prod.fst h)
  | cons p ps ih =>
    intro acc kv h
    simp only [List.foldl_cons] at h
    rcases hp2 : p.2 with _ | v
    · rw [hp2] at h
      rcases ih acc kv h with h' | h'
      · exact Or.inl h'
      · exact Or.inr (by simp [h'])
    · rw [hp2] at h
      rcases ih (setParam acc p.1 v) kv h with h' | h'
      · rcases List.mem_map.mp h' with ⟨q, hq, hqe⟩
        rcases setParam_key hq with hq' | hq'
        · exact Or.inl (hqe ▸ hq')
        · right; rw [hq'] at hqe; simp [← hqe]
      · exact Or.inr (by simp [h'])

/-- No cursor-keyed pair survives the base-parameter fold when the base
parameters carry no `cursor` key. -/
theorem buildBskyBaseParams_no_cursor {ps : List (String × Option String)}
    (hps : "cursor" ∉ ps.map Prod.fst) (w : String) :
    ("cursor", w) ∉ buildBskyBaseParams ps := by
  intro hw
  rcases buildBase_key ps [] ("cursor", w) hw with h' | h'
  · simp at h'
  · exact hps h'

/-- A cursor parameter appears in a built URL only when the threaded cursor
is that non-empty string, provided the base parameters carry no `cursor`
key. -/
theorem buildBskyApiUrl_cursor {ps : List (String × Option String)}
    (hps : "cursor" ∉ ps.map Prod.fst) (cursor : Option String) (v : String)
    (h : ("cursor", v) ∈ buildBskyApiUrl ps cursor) :
    cursor = some v ∧ v ≠ "" := by
  rcases cursor with _ | s
  · exact absurd h (buildBskyBaseParams_no_cursor hps v)
  · simp only [buildBskyApiUrl] at h
    by_cases hs : s.length > 0
    · rw [if_pos hs] at h
      rcases setParam_key h with h' | h'
      · exfalso
        rcases List.mem_map.mp h' with ⟨q, hq, hqe⟩
        exact buildBskyBaseParams_no_cursor hps q.2 (by rw [show q = ("cursor", q.2) from Prod.ext hqe rfl] at hq; exact hq)
      · have hv : v = s := ((Prod.mk.injEq _ _ _ _).mp h').2
        subst hv
        refine ⟨rfl, fun h0 => ?_⟩
        rw [h0] at hs
        simp at hs
    · rw [if_neg hs] at h
      exact absurd h (buildBskyBaseParams_no_cursor hps v)

/-- A URL built with no cursor carries no cursor parameter when the base
parameters carry none. -/
theorem buildBskyApiUrl_no_cursor {ps : List (String × Option String)}
    (hps : "cursor" ∉ ps.map Prod.fst) (v : String) :
    ("cursor", v) ∉ buildBskyApiUrl ps none := by
  intro h
  exact buildBskyBaseParams_no_cursor hps v h

/-! ## Step lemmas for the unfiltered collector loop -/

theorem bskyCollectLoop_done {α : Type} (server : Server α)
    (bp : List (String × Option String)) (limit ipr : Nat) (acc : List α)
    (cursor : Option String) (rc tf : Nat) (h : ¬ acc.length < limit) :
    bskyCollectLoop server bp limit ipr acc cursor rc tf =
      (.ok ⟨acc.take limit, tf, rc⟩, []) := by
  rw [bskyCollectLoop]
  simp only [h, dif_neg, not_false_iff]

theorem bskyCollectLoop_error {α : Type} (server : Server α)
    (bp : List (String × Option String)) (limit ipr : Nat) (acc : List α)
    (cursor : Option String) (rc tf : Nat) (e : String)
    (hlt : acc.length < limit)
    (hserver : server rc cursor (min ipr (limit - acc.length)) = .error e) :
    bskyCollectLoop server bp limit ipr acc cursor rc tf =
      (.error e,
        [⟨cursor,
          buildBskyApiUrl
            (bp ++ [("limit", some (toString (min ipr (limit - acc.length))))]) cursor,
          none⟩]) := by
  rw [bskyCollectLoop]
  simp only [hlt, dif_pos, hserver]

theorem bskyCollectLoop_empty {α : Type} (server : Server α)
    (bp : List (String × Option String)) (limit ipr : Nat) (acc : List α)
    (cursor : Option String) (rc tf : Nat) (page : Page α)
    (hlt : acc.length < limit)
    (hserver : server rc cursor (min ipr (limit - acc.length)) = .ok page)
    (hitems : page.items = []) :
    bskyCollectLoop server bp limit ipr acc cursor rc tf =
      (.ok ⟨acc.take limit, tf, rc + 1⟩,
        [⟨cursor,
          buildBskyApiUrl
            (bp ++ [("limit", some (toString (min ipr (limit - acc.length))))]) cursor,
          normalizeCursor page.cursor⟩]) := by
  obtain ⟨items, pc⟩ := page
  simp only at hitems
  subst hitems
  rw [bskyCollectLoop]
  simp only [hlt, dif_pos, hserver]

theorem bskyCollectLoop_break {α : Type} (server : Server α)
    (bp : List (String × Option String)) (limit ipr : Nat) (acc : List α)
    (cursor : Option String) (rc tf : Nat) (page : Page α) (x : α) (xs : List α)
    (hlt : acc.length < limit)
    (hserver : server rc cursor (min ipr (limit - acc.length)) = .ok page)
    (hitems : page.items = x :: xs)
    (hstop : limit ≤ (acc ++ page.items).length ∨ normalizeCursor page.cursor = none) :
    bskyCollectLoop server bp limit ipr acc cursor rc tf =
      (.ok ⟨(acc ++ page.items).take limit, tf + page.items.length, rc + 1⟩,
        [⟨cursor,
          buildBskyApiUrl
            (bp ++ [("limit", some (toString (min ipr (limit - acc.length))))]) cursor,
          normalizeCursor page.cursor⟩]) := by
  obtain ⟨items, pc⟩ := page
  simp only at hitems hstop ⊢
  subst hitems
  rw [bskyCollectLoop]
  simp only [hlt, dif_pos, hserver, hstop, if_pos]

theorem bskyCollectLoop_next {α : Type} (server : Server α)
    (bp : List (String × Option String)) (limit ipr : Nat) (acc : List α)
    (cursor : Option String) (rc tf : Nat) (page : Page α) (x : α) (xs : List α)
    (hlt : acc.length < limit)
    (hserver : server rc cursor (min ipr (limit - acc.length)) = .ok page)
    (hitems : page.items = x :: xs)
    (hgo : ¬ (limit ≤ (acc ++ page.items).length ∨ normalizeCursor page.cursor = none)) :
    bskyCollectLoop server bp limit ipr acc cursor rc tf =
      ((bskyCollectLoop server bp limit ipr (acc ++ page.items)
          (normalizeCursor page.cursor) (rc + 1) (tf + page.items.length)).1,
        ⟨cursor,
          buildBskyApiUrl
            (bp ++ [("limit", some (toString (min ipr (limit - acc.length))))]) cursor,
          normalizeCursor page.cursor⟩ ::
          (bskyCollectLoop server bp limit ipr (acc ++ page.items)
            (normalizeCursor page.cursor) (rc + 1) (tf + page.items.length)).2) := by
  obtain ⟨items, pc⟩ := page
  simp only at hitems hgo ⊢
  subst hitems
  conv_lhs => rw [bskyCollectLoop]
  simp only [hlt, dif_pos, hserver, hgo, if_neg]
  simp

/-! ## The master invariant of the unfiltered collector loop -/

theorem bskyCollectLoop_spec {α : Type} (server : Server α)
    (bp : List (String × Option String)) (limit ipr : Nat)
    (acc₀ : List α) (cursor₀ : Option String) (rc₀ tf₀ : Nat) :
    (∀ r, (bskyCollectLoop server bp limit ipr acc₀ cursor₀ rc₀ tf₀).1 = .ok r →
        r.data.length ≤ limit ∧
        r.requestCount = rc₀ +
          (bskyCollectLoop server bp limit ipr acc₀ cursor₀ rc₀ tf₀).2.length) ∧
    (bskyCollectLoop server bp limit ipr acc₀ cursor₀ rc₀ tf₀).2.length ≤ limit - acc₀.length ∧
    (∀ ent, (bskyCollectLoop server bp limit ipr acc₀ cursor₀ rc₀ tf₀).2.head? = some ent →
        ent.cursorUsed = cursor₀) ∧
    List.Chain' cursorChain (bskyCollectLoop server bp limit ipr acc₀ cursor₀ rc₀ tf₀).2 ∧
    (∀ ent ∈ (bskyCollectLoop server bp limit ipr acc₀ cursor₀ rc₀ tf₀).2, ∃ rl : Nat,
        ent.params = buildBskyApiUrl (bp ++ [("limit", some (toString rl))]) ent.cursorUsed) ∧
    (∀ pre ent post,
        (bskyCollectLoop server bp limit ipr acc₀ cursor₀ rc₀ tf₀).2 = pre ++ ent :: post →
        ent.newCursor = none → post = []) ∧
    ((∀ i c l, (server i c l).isOk = true) →
      ((bskyCollectLoop server bp limit ipr acc₀ cursor₀ rc₀ tf₀).1).isOk = true) := by
  induction acc₀, cursor₀, rc₀, tf₀ using bskyCollectLoop.induct server bp limit ipr with
  | case1 acc cursor rc tf hlt rl e hserver =>
    rw [bskyCollectLoop_error server bp limit ipr acc cursor rc tf e hlt hserver]
    refine ⟨?_, ?_, ?_, ?_, ?_, ?_, ?_⟩
    · intro r hr
      simp at hr
    · simp
      omega
    · intro ent hent
      simp only [List.head?_cons, Option.some.injEq] at hent
      rw [← hent]
    · simp [cursorChain]
    · intro ent hent
      simp only [List.mem_singleton] at hent
      exact ⟨min ipr (limit - acc.length), by rw [hent]⟩
    · intro pre ent post heq _
      rcases pre with _ | ⟨p, pre⟩
      · simpa using ((List.cons.injEq _ _ _ _).mp (by simpa using heq)).2.symm
      · exfalso
        simp only [List.cons_append] at heq
        have := (List.cons.injEq _ _ _ _).mp heq
        exact absurd this.2 (by simp)
    · intro htotal
      have := htotal rc cursor (min ipr (limit - acc.length))
      rw [hserver] at this
      simp [Except.isOk, Except.toBool] at this
  | case2 acc cursor rc tf hlt rl page hserver hitems =>
    rw [bskyCollectLoop_empty server bp limit ipr acc cursor rc tf page hlt hserver hitems]
    refine ⟨fun r hr => ?_, by simp; omega, ?_, ?_, ?_, ?_, ?_⟩
    · cases hr
      refine ⟨by simp, by simp⟩
    · intro ent hent
      simp only [List.head?_cons, Option.some.injEq] at hent
      rw [← hent]
    · simp [cursorChain]
    · intro ent hent
      simp only [List.mem_singleton] at hent
      exact ⟨min ipr (limit - acc.length), by rw [hent]⟩
    · intro pre ent post heq _
      rcases pre with _ | ⟨p, pre⟩
      · simpa using ((List.cons.injEq _ _ _ _).mp (by simpa using heq)).2.symm
      · exfalso
        simp only [List.cons_append] at heq
        have := (List.cons.injEq _ _ _ _).mp heq
        exact absurd this.2 (by simp)
    · intro _
      simp [Except.isOk, Except.toBool]
  | case3 acc cursor rc tf hlt rl page hserver newC x xs hitems accx hstop =>
    rw [bskyCollectLoop_break server bp limit ipr acc cursor rc tf page x xs hlt hserver
      hitems hstop]
    refine ⟨fun r hr => ?_, by simp; omega, ?_, ?_, ?_, ?_, ?_⟩
    · cases hr
      refine ⟨by simp, by simp⟩
    · intro ent hent
      simp only [List.head?_cons, Option.some.injEq] at hent
      rw [← hent]
    · simp [cursorChain]
    · intro ent hent
      simp only [List.mem_singleton] at hent
      exact ⟨min ipr (limit - acc.length), by rw [hent]⟩
    · intro pre ent post heq _
      rcases pre with _ | ⟨p, pre⟩
      · simpa using ((List.cons.injEq _ _ _ _).mp (by simpa using heq)).2.symm
      · exfalso
        simp only [List.cons_append] at heq
        have := (List.cons.injEq _ _ _ _).mp heq
        exact absurd this.2 (by simp)
    · intro _
      simp [Except.isOk, Except.toBool]
  | case4 acc cursor rc tf hlt rl page hserver newC x xs hitems accx tfx hgo ih =>
    rw [bskyCollectLoop_next server bp limit ipr acc cursor rc tf page x xs hlt hserver
      hitems hgo]
    obtain ⟨ih1, ih2, ih3, ih4, ih5, ih6, ih7⟩ := ih
    have ih1' : ∀ r, (bskyCollectLoop server bp limit ipr (acc ++ page.items)
        (normalizeCursor page.cursor) (rc + 1) (tf + page.items.length)).1 = .ok r →
        r.data.length ≤ limit ∧
        r.requestCount = (rc + 1) +
          (bskyCollectLoop server bp limit ipr (acc ++ page.items)
            (normalizeCursor page.cursor) (rc + 1) (tf + page.items.length)).2.length := ih1
    have ih2' : (bskyCollectLoop server bp limit ipr (acc ++ page.items)
        (normalizeCursor page.cursor) (rc + 1) (tf + page.items.length)).2.length ≤
        limit - (acc ++ page.items).length := ih2
    have ih3' : ∀ ent, (bskyCollectLoop server bp limit ipr (acc ++ page.items)
        (normalizeCursor page.cursor) (rc + 1) (tf + page.items.length)).2.head? = some ent →
        ent.cursorUsed = normalizeCursor page.cursor := ih3
    have hlen : (acc ++ page.items).length = acc.length + page.items.length :=
      List.length_append _ _
    have hpos : 0 < page.items.length := by rw [hitems]; simp
    refine ⟨fun r hr => ?_, ?_, ?_, ?_, ?_, ?_, ?_⟩
    · obtain ⟨h1, h2⟩ := ih1' r hr
      exact ⟨h1, by simp only [List.length_cons]; omega⟩
    · have := ih2'
      simp only [List.length_cons]
      omega
    · intro ent hent
      simp only [List.head?_cons, Option.some.injEq] at hent
      rw [← hent]
    · rw [List.chain'_cons']
      refine ⟨fun b hb => ?_, ih4⟩
      have := ih3' b hb
      simpa [cursorChain] using this
    · intro ent hent
      rcases List.mem_cons.mp hent with hent | hent
      · exact ⟨min ipr (limit - acc.length), by rw [hent]⟩
      · exact ih5 ent hent
    · intro pre ent post heq hnone
      rcases pre with _ | ⟨p, pre⟩
      · exfalso
        simp only [List.nil_append] at heq
        have h1 := (List.cons.injEq _ _ _ _).mp heq
        have hent : ent.newCursor = normalizeCursor page.cursor := by rw [← h1.1]
        rw [hent] at hnone
        exact (not_or.mp hgo).2 hnone
      · simp only [List.cons_append] at heq
        have h1 := (List.cons.injEq _ _ _ _).mp heq
        exact ih6 pre ent post h1.2 hnone
    · exact ih7
  | case5 acc cursor rc tf hge =>
    rw [bskyCollectLoop_done server bp limit ipr acc cursor rc tf hge]
    refine ⟨fun r hr => ?_, by simp, by simp, by simp, by simp, ?_, ?_⟩
    · cases hr
      refine ⟨by simp, by simp⟩
    · intro pre ent post heq _
      exact absurd heq (by simp)
    · intro _
      simp [Except.isOk, Except.toBool]

/-! ## Step lemmas for the filtered collector loop -/

theorem bskyFilteredCollectLoop_done {α : Type} (server : Server α)
    (bp : List (String × Option String)) (filter : α → Bool)
    (limit ipr maxReq : Nat) (acc : List α) (cursor : Option String) (rc tf : Nat)
    (h : ¬ (acc.length < limit ∧ rc < maxReq)) :
    bskyFilteredCollectLoop server bp filter limit ipr maxReq acc cursor rc tf =
      (.ok ⟨acc.take limit, tf, rc⟩, []) := by
  rw [bskyFilteredCollectLoop, dif_neg h]

theorem bskyFilteredCollectLoop_error {α : Type} (server : Server α)
    (bp : List (String × Option String)) (filter : α → Bool)
    (limit ipr maxReq : Nat) (acc : List α) (cursor : Option String) (rc tf : Nat)
    (e : String) (h : acc.length < limit ∧ rc < maxReq)
    (hserver : server rc cursor ipr = .error e) :
    bskyFilteredCollectLoop server bp filter limit ipr maxReq acc cursor rc tf =
      (.error e,
        [⟨cursor, buildBskyApiUrl (bp ++ [("limit", some (toString ipr))]) cursor,
          none⟩]) := by
  rw [bskyFilteredCollectLoop, dif_pos h]
  simp only [hserver]

theorem bskyFilteredCollectLoop_empty {α : Type} (server : Server α)
    (bp : List (String × Option String)) (filter : α → Bool)
    (limit ipr maxReq : Nat) (acc : List α) (cursor : Option String) (rc tf : Nat)
    (page : Page α) (h : acc.length < limit ∧ rc < maxReq)
    (hserver : server rc cursor ipr = .ok page) (hitems : page.items = []) :
    bskyFilteredCollectLoop server bp filter limit ipr maxReq acc cursor rc tf =
      (.ok ⟨acc.take limit, tf, rc + 1⟩,
        [⟨cursor, buildBskyApiUrl (bp ++ [("limit", some (toString ipr))]) cursor,
          normalizeCursor page.cursor⟩]) := by
  obtain ⟨items, pc⟩ := page
  simp only at hitems
  subst hitems
  rw [bskyFilteredCollectLoop, dif_pos h]
  simp only [hserver]

theorem bskyFilteredCollectLoop_break {α : Type} (server : Server α)
    (bp : List (String × Option String)) (filter : α → Bool)
    (limit ipr maxReq : Nat) (acc : List α) (cursor : Option String) (rc tf : Nat)
    (page : Page α) (x : α) (xs : List α) (h : acc.length < limit ∧ rc < maxReq)
    (hserver : server rc cursor ipr = .ok page) (hitems : page.items = x :: xs)
    (hstop : limit ≤ (takeFilter filter limit acc page.items).length ∨
      normalizeCursor page.cursor = none) :
    bskyFilteredCollectLoop server bp filter limit ipr maxReq acc cursor rc tf =
      (.ok ⟨(takeFilter filter limit acc page.items).take limit,
          tf + page.items.length, rc + 1⟩,
        [⟨cursor, buildBskyApiUrl (bp ++ [("limit", some (toString ipr))]) cursor,
          normalizeCursor page.cursor⟩]) := by
  obtain ⟨items, pc⟩ := page
  simp only at hitems hstop ⊢
  subst hitems
  rw [bskyFilteredCollectLoop, dif_pos h]
  simp only [hserver, hstop, if_pos]

theorem bskyFilteredCollectLoop_next {α : Type} (server : Server α)
    (bp : List (String × Option String)) (filter : α → Bool)
    (limit ipr maxReq : Nat) (acc : List α) (cursor : Option String) (rc tf : Nat)
    (page : Page α) (x : α) (xs : List α) (h : acc.length < limit ∧ rc < maxReq)
    (hserver : server rc cursor ipr = .ok page) (hitems : page.items = x :: xs)
    (hgo : ¬ (limit ≤ (takeFilter filter limit acc page.items).length ∨
      normalizeCursor page.cursor = none)) :
    bskyFilteredCollectLoop server bp filter limit ipr maxReq acc cursor rc tf =
      ((bskyFilteredCollectLoop server bp filter limit ipr maxReq
          (takeFilter filter limit acc page.items) (normalizeCursor page.cursor)
          (rc + 1) (tf + page.items.length)).1,
        ⟨cursor, buildBskyApiUrl (bp ++ [("limit", some (toString ipr))]) cursor,
          normalizeCursor page.cursor⟩ ::
          (bskyFilteredCollectLoop server bp filter limit ipr maxReq
            (takeFilter filter limit acc page.items) (normalizeCursor page.cursor)
            (rc + 1) (tf + page.items.length)).2) := by
  obtain ⟨items, pc⟩ := page
  simp only at hitems hgo ⊢
  subst hitems
  conv_lhs => rw [bskyFilteredCollectLoop]
  rw [dif_pos h]
  simp only [hserver, hgo, if_neg]
  simp

/-! ## The master invariant of the filtered collector loop -/

theorem bskyFilteredCollectLoop_spec {α : Type} (server : Server α)
    (bp : List (String × Option String)) (filter : α → Bool)
    (limit ipr maxReq : Nat) (acc₀ : List α) (cursor₀ : Option String) (rc₀ tf₀ : Nat) :
    (∀ r, (bskyFilteredCollectLoop server bp filter limit ipr maxReq acc₀ cursor₀ rc₀ tf₀).1
        = .ok r →
        r.requestCount = rc₀ +
          (bskyFilteredCollectLoop server bp filter limit ipr maxReq acc₀ cursor₀ rc₀ tf₀).2.length) ∧
    (bskyFilteredCollectLoop server bp filter limit ipr maxReq acc₀ cursor₀ rc₀ tf₀).2.length
      ≤ maxReq - rc₀ ∧
    (∀ ent, (bskyFilteredCollectLoop server bp filter limit ipr maxReq acc₀ cursor₀ rc₀ tf₀).2.head?
        = some ent → ent.cursorUsed = cursor₀) ∧
    List.Chain' cursorChain
      (bskyFilteredCollectLoop server bp filter limit ipr maxReq acc₀ cursor₀ rc₀ tf₀).2 ∧
    (∀ ent ∈ (bskyFilteredCollectLoop server bp filter limit ipr maxReq acc₀ cursor₀ rc₀ tf₀).2,
        ∃ rl : Nat,
        ent.params = buildBskyApiUrl (bp ++ [("limit", some (toString rl))]) ent.cursorUsed) ∧
    (∀ pre ent post,
        (bskyFilteredCollectLoop server bp filter limit ipr maxReq acc₀ cursor₀ rc₀ tf₀).2
          = pre ++ ent :: post →
        ent.newCursor = none → post = []) ∧
    ((∀ i c l, (server i c l).isOk = true) →
      ((bskyFilteredCollectLoop server bp filter limit ipr maxReq acc₀ cursor₀ rc₀ tf₀).1).isOk
        = true) := by
  induction acc₀, cursor₀, rc₀, tf₀ using
    bskyFilteredCollectLoop.induct server bp filter limit ipr maxReq with
  | case1 acc cursor rc tf h e hserver =>
    rw [bskyFilteredCollectLoop_error server bp filter limit ipr maxReq acc cursor rc tf e
      h hserver]
    refine ⟨?_, ?_, ?_, ?_, ?_, ?_, ?_⟩
    · intro r hr
      simp at hr
    · simp
      omega
    · intro ent hent
      simp only [List.head?_cons, Option.some.injEq] at hent
      rw [← hent]
    · simp [cursorChain]
    · intro ent hent
      simp only [List.mem_singleton] at hent
      exact ⟨ipr, by rw [hent]⟩
    · intro pre ent post heq _
      rcases pre with _ | ⟨p, pre⟩
      · simpa using ((List.cons.injEq _ _ _ _).mp (by simpa using heq)).2.symm
      · exfalso
        simp only [List.cons_append] at heq
        have := (List.cons.injEq _ _ _ _).mp heq
        exact absurd this.2 (by simp)
    · intro htotal
      have := htotal rc cursor ipr
      rw [hserver] at this
      simp [Except.isOk, Except.toBool] at this
  | case2 acc cursor rc tf h page hserver hitems =>
    rw [bskyFilteredCollectLoop_empty server bp filter limit ipr maxReq acc cursor rc tf
      page h hserver hitems]
    refine ⟨?_, ?_, ?_, ?_, ?_, ?_, ?_⟩
    · intro r hr
      cases hr
      simp
    · simp
      omega
    · intro ent hent
      simp only [List.head?_cons, Option.some.injEq] at hent
      rw [← hent]
    · simp [cursorChain]
    · intro ent hent
      simp only [List.mem_singleton] at hent
      exact ⟨ipr, by rw [hent]⟩
    · intro pre ent post heq _
      rcases pre with _ | ⟨p, pre⟩
      · simpa using ((List.cons.injEq _ _ _ _).mp (by simpa using heq)).2.symm
      · exfalso
        simp only [List.cons_append] at heq
        have := (List.cons.injEq _ _ _ _).mp heq
        exact absurd this.2 (by simp)
    · intro _
      simp [Except.isOk, Except.toBool]
  | case3 acc cursor rc tf h page hserver newC x xs hitems accx hstop =>
    rw [bskyFilteredCollectLoop_break server bp filter limit ipr maxReq acc cursor rc tf
      page x xs h hserver hitems hstop]
    refine ⟨?_, ?_, ?_, ?_, ?_, ?_, ?_⟩
    · intro r hr
      cases hr
      simp
    · simp
      omega
    · intro ent hent
      simp only [List.head?_cons, Option.some.injEq] at hent
      rw [← hent]
    · simp [cursorChain]
    · intro ent hent
      simp only [List.mem_singleton] at hent
      exact ⟨ipr, by rw [hent]⟩
    · intro pre ent post heq _
      rcases pre with _ | ⟨p, pre⟩
      · simpa using ((List.cons.injEq _ _ _ _).mp (by simpa using heq)).2.symm
      · exfalso
        simp only [List.cons_append] at heq
        have := (List.cons.injEq _ _ _ _).mp heq
        exact absurd this.2 (by simp)
    · intro _
      simp [Except.isOk, Except.toBool]
  | case4 acc cursor rc tf h page hserver newC x xs hitems accx tfx hgo ih =>
    rw [bskyFilteredCollectLoop_next server bp filter limit ipr maxReq acc cursor rc tf
      page x xs h hserver hitems hgo]
    obtain ⟨ih1, ih2, ih3, ih4, ih5, ih6, ih7⟩ := ih
    have ih1' : ∀ r, (bskyFilteredCollectLoop server bp filter limit ipr maxReq
        (takeFilter filter limit acc page.items) (normalizeCursor page.cursor)
        (rc + 1) (tf + page.items.length)).1 = .ok r →
        r.requestCount = (rc + 1) +
          (bskyFilteredCollectLoop server bp filter limit ipr maxReq
            (takeFilter filter limit acc page.items) (normalizeCursor page.cursor)
            (rc + 1) (tf + page.items.length)).2.length := ih1
    have ih2' : (bskyFilteredCollectLoop server bp filter limit ipr maxReq
        (takeFilter filter limit acc page.items) (normalizeCursor page.cursor)
        (rc + 1) (tf + page.items.length)).2.length ≤ maxReq - (rc + 1) := ih2
    have ih3' : ∀ ent, (bskyFilteredCollectLoop server bp filter limit ipr maxReq
        (takeFilter filter limit acc page.items) (normalizeCursor page.cursor)
        (rc + 1) (tf + page.items.length)).2.head? = some ent →
        ent.cursorUsed = normalizeCursor page.cursor := ih3
    refine ⟨?_, ?_, ?_, ?_, ?_, ?_, ?_⟩
    · intro r hr
      have := ih1' r hr
      simp only [List.length_cons]
      omega
    · simp only [List.length_cons]
      have hrc : rc < maxReq := h.2
      omega
    · intro ent hent
      simp only [List.head?_cons, Option.some.injEq] at hent
      rw [← hent]
    · rw [List.chain'_cons']
      refine ⟨fun b hb => ?_, ih4⟩
      have := ih3' b hb
      simpa [cursorChain] using this
    · intro ent hent
      rcases List.mem_cons.mp hent with hent | hent
      · exact ⟨ipr, by rw [hent]⟩
      · exact ih5 ent hent
    · intro pre ent post heq hnone
      rcases pre with _ | ⟨p, pre⟩
      · exfalso
        simp only [List.nil_append] at heq
        have h1 := (List.cons.injEq _ _ _ _).mp heq
        have hent : ent.newCursor = normalizeCursor page.cursor := by rw [← h1.1]
        rw [hent] at hnone
        exact (not_or.mp hgo).2 hnone
      · simp only [List.cons_append] at heq
        have h1 := (List.cons.injEq _ _ _ _).mp heq
        exact ih6 pre ent post h1.2 hnone
    · exact ih7
  | case5 acc cursor rc tf hge =>
    rw [bskyFilteredCollectLoop_done server bp filter limit ipr maxReq acc cursor rc tf hge]
    refine ⟨?_, by simp, by simp, by simp, by simp, ?_, ?_⟩
    · intro r hr
      cases hr
      simp
    · intro pre ent post heq _
      exact absurd heq (by simp)
    · intro _
      simp [Except.isOk, Except.toBool]

/-! ## Claims about the paginated collectors -/

/-- C4: the unfiltered collector always terminates — it issues at most
`limit` requests on any sequence of responses, and a response whose
normalized cursor is absent (in particular a short page with no cursor) is
the last request, with no further request issued — and a successful result
always satisfies `data.length ≤ limit` and `requestCount ≤ limit`. -/
theorem fetchBskyPaginatedData_spec {α : Type} (server : Server α)
    (bp : List (String × Option String)) (opts : FetchOptions) :
    (∀ r, fetchBskyPaginatedData server bp opts = .ok r →
        r.data.length ≤ opts.limit ∧ r.requestCount ≤ opts.limit) ∧
    (fetchBskyPaginatedDataT server bp opts).2.length ≤ opts.limit ∧
    (∀ pre ent post, (fetchBskyPaginatedDataT server bp opts).2 = pre ++ ent :: post →
        ent.newCursor = none → post = []) := by
  obtain ⟨m1, m2, m3, m4, m5, m6, m7⟩ := bskyCollectLoop_spec server bp opts.limit
    (min 100 (max 25 ((opts.limit * opts.requestMultiplier + 3) / 4))) [] none 0 0
  refine ⟨fun r hr => ?_, ?_, fun pre ent post heq => m6 pre ent post heq⟩
  · obtain ⟨h1, h2⟩ := m1 r hr
    refine ⟨h1, ?_⟩
    simp only [List.length_nil, Nat.sub_zero] at m2
    omega
  · simpa using m2

/-- C4 witness: the specification instantiated at a concrete short-page
server with the default options. -/
theorem fetchBskyPaginatedData_spec_witness :
    (∀ r, fetchBskyPaginatedData shortPageServer [("actor", some "alice")] {} = .ok r →
        r.data.length ≤ ({} : FetchOptions).limit ∧
        r.requestCount ≤ ({} : FetchOptions).limit) ∧
    (fetchBskyPaginatedDataT shortPageServer [("actor", some "alice")] {}).2.length
      ≤ ({} : FetchOptions).limit ∧
    (∀ pre ent post,
        (fetchBskyPaginatedDataT shortPageServer [("actor", some "alice")] {}).2
          = pre ++ ent :: post →
        ent.newCursor = none → post = []) :=
  fetchBskyPaginatedData_spec shortPageServer [("actor", some "alice")] {}

/-- C5: the filtered collector issues at most `maxRequests` request attempts
on any input, `maxRequests` defaults to 10, and hitting the ceiling is not
an error — whenever the upstream itself never fails, the collector returns
a successful result with the items collected so far. -/
theorem fetchBskyPaginatedDataWithFiltering_spec {α : Type} (server : Server α)
    (bp : List (String × Option String)) (filter : α → Bool)
    (opts : FilteredFetchOptions) :
    (fetchBskyPaginatedDataWithFilteringT server bp filter opts).2.length
      ≤ opts.maxRequests ∧
    (∀ r, fetchBskyPaginatedDataWithFiltering server bp filter opts = .ok r →
        r.requestCount ≤ opts.maxRequests) ∧
    ({} : FilteredFetchOptions).maxRequests = 10 ∧
    ((∀ i c l, (server i c l).isOk = true) →
      (fetchBskyPaginatedDataWithFiltering server bp filter opts).isOk = true) := by
  obtain ⟨m1, m2, m3, m4, m5, m6, m7⟩ := bskyFilteredCollectLoop_spec server bp filter
    opts.limit (min 100 (max 50 ((opts.limit * opts.requestMultiplier + 2) / 3)))
    opts.maxRequests [] none 0 0
  refine ⟨by simpa using m2, fun r hr => ?_, rfl, m7⟩
  have h1 := m1 r hr
  simp only [Nat.sub_zero] at m2
  omega

/-- C5 witness: the specification instantiated at a concrete endless server
with a filter matching nothing and the default options. -/
theorem fetchBskyPaginatedDataWithFiltering_spec_witness :
    (fetchBskyPaginatedDataWithFilteringT endlessServer [("actor", some "alice")]
        (fun _ => false) {}).2.length ≤ ({} : FilteredFetchOptions).maxRequests ∧
    (∀ r, fetchBskyPaginatedDataWithFiltering endlessServer [("actor", some "alice")]
        (fun _ => false) {} = .ok r →
        r.requestCount ≤ ({} : FilteredFetchOptions).maxRequests) ∧
    ({} : FilteredFetchOptions).maxRequests = 10 ∧
    ((∀ i c l, (endlessServer i c l).isOk = true) →
      (fetchBskyPaginatedDataWithFiltering endlessServer [("actor", some "alice")]
        (fun _ => false) {}).isOk = true) :=
  fetchBskyPaginatedDataWithFiltering_spec endlessServer [("actor", some "alice")]
    (fun _ => false) {}

/-- C6: for both collectors, when the base parameters carry no `cursor` key,
the first issued request threads no cursor and carries no cursor parameter;
consecutive requests chain — each threads exactly the normalized cursor of
the previous response — and any request carrying a cursor parameter threads
that exact non-empty value; a normalized cursor exists only when the raw
response cursor was that same non-empty string. -/
theorem collectors_cursor_discipline {α : Type} (server fserver : Server α)
    (bp : List (String × Option String)) (filter : α → Bool)
    (opts : FetchOptions) (fopts : FilteredFetchOptions)
    (hbp : "cursor" ∉ bp.map Prod.fst) :
    (∀ ent, (fetchBskyPaginatedDataT server bp opts).2.head? = some ent →
        ent.cursorUsed = none ∧ ∀ v, ("cursor", v) ∉ ent.params) ∧
    List.Chain' cursorChain (fetchBskyPaginatedDataT server bp opts).2 ∧
    (∀ ent ∈ (fetchBskyPaginatedDataT server bp opts).2, ∀ v,
        ("cursor", v) ∈ ent.params → ent.cursorUsed = some v ∧ v ≠ "") ∧
    (∀ ent, (fetchBskyPaginatedDataWithFilteringT fserver bp filter fopts).2.head?
        = some ent → ent.cursorUsed = none ∧ ∀ v, ("cursor", v) ∉ ent.params) ∧
    List.Chain' cursorChain
      (fetchBskyPaginatedDataWithFilteringT fserver bp filter fopts).2 ∧
    (∀ ent ∈ (fetchBskyPaginatedDataWithFilteringT fserver bp filter fopts).2, ∀ v,
        ("cursor", v) ∈ ent.params → ent.cursorUsed = some v ∧ v ≠ "") ∧
    (∀ c v, normalizeCursor c = some v → c = some v ∧ v ≠ "") := by
  have hbpx : ∀ rl : Nat, "cursor" ∉ (bp ++ [("limit", some (toString rl))]).map Prod.fst := by
    intro rl
    simp only [List.map_append, List.mem_append]
    rintro (h | h)
    · exact hbp h
    · simp at h
  obtain ⟨m1, m2, m3, m4, m5, m6, m7⟩ := bskyCollectLoop_spec server bp opts.limit
    (min 100 (max 25 ((opts.limit * opts.requestMultiplier + 3) / 4))) [] none 0 0
  obtain ⟨f1, f2, f3, f4, f5, f6, f7⟩ := bskyFilteredCollectLoop_spec fserver bp filter
    fopts.limit (min 100 (max 50 ((fopts.limit * fopts.requestMultiplier + 2) / 3)))
    fopts.maxRequests [] none 0 0
  refine ⟨fun ent hent => ?_, m4, fun ent hent v hv => ?_, fun ent hent => ?_, f4,
    fun ent hent v hv => ?_, fun c v hc => ?_⟩
  · have hcu := m3 ent hent
    have hmem : ent ∈ (fetchBskyPaginatedDataT server bp opts).2 :=
      List.mem_of_mem_head? hent
    obtain ⟨rl, hparams⟩ := m5 ent hmem
    refine ⟨hcu, fun v hv => ?_⟩
    rw [hparams, hcu] at hv
    exact buildBskyApiUrl_no_cursor (hbpx rl) v hv
  · obtain ⟨rl, hparams⟩ := m5 ent hent
    rw [hparams] at hv
    exact buildBskyApiUrl_cursor (hbpx rl) ent.cursorUsed v hv
  · have hcu := f3 ent hent
    have hmem : ent ∈ (fetchBskyPaginatedDataWithFilteringT fserver bp filter fopts).2 :=
      List.mem_of_mem_head? hent
    obtain ⟨rl, hparams⟩ := f5 ent hmem
    refine ⟨hcu, fun v hv => ?_⟩
    rw [hparams, hcu] at hv
    exact buildBskyApiUrl_no_cursor (hbpx rl) v hv
  · obtain ⟨rl, hparams⟩ := f5 ent hent
    rw [hparams] at hv
    exact buildBskyApiUrl_cursor (hbpx rl) ent.cursorUsed v hv
  · rcases c with _ | s
    · cases hc
    · simp only [normalizeCursor] at hc
      by_cases hs : s == ""
    
      · rw [if_pos hs] at hc; cases hc
      · rw [if_neg hs] at hc
        cases hc
        exact ⟨rfl, by simpa using hs⟩

/-- C6 witness: the cursor discipline instantiated at concrete servers and
cursor-free base parameters. -/
theorem collectors_cursor_discipline_witness :
    ("cursor" ∉ ([("actor", some "alice")] : List (String × Option String)).map Prod.fst) ∧
    ((∀ ent, (fetchBskyPaginatedDataT shortPageServer [("actor", some "alice")] {}).2.head?
        = some ent → ent.cursorUsed = none ∧ ∀ v, ("cursor", v) ∉ ent.params) ∧
    List.Chain' cursorChain
      (fetchBskyPaginatedDataT shortPageServer [("actor", some "alice")] {}).2 ∧
    (∀ ent ∈ (fetchBskyPaginatedDataT shortPageServer [("actor", some "alice")] {}).2, ∀ v,
        ("cursor", v) ∈ ent.params → ent.cursorUsed = some v ∧ v ≠ "") ∧
    (∀ ent, (fetchBskyPaginatedDataWithFilteringT endlessServer [("actor", some "alice")]
        (fun _ => false) {}).2.head? = some ent →
        ent.cursorUsed = none ∧ ∀ v, ("cursor", v) ∉ ent.params) ∧
    List.Chain' cursorChain
      (fetchBskyPaginatedDataWithFilteringT endlessServer [("actor", some "alice")]
        (fun _ => false) {}).2 ∧
    (∀ ent ∈ (fetchBskyPaginatedDataWithFilteringT endlessServer [("actor", some "alice")]
        (fun _ => false) {}).2, ∀ v,
        ("cursor", v) ∈ ent.params → ent.cursorUsed = some v ∧ v ≠ "") ∧
    (∀ c v, normalizeCursor c = some v → c = some v ∧ v ≠ "")) :=
  ⟨by decide,
    collectors_cursor_discipline shortPageServer endlessServer [("actor", some "alice")]
      (fun _ => false) {} {} (by decide)⟩

end BskySpec

